import Mathlib

/-
  Verification of the MicroPulse order-fulfillment core.

  Shallow embedding of:
  - the event-sourced `OrderAggregate` state machine
    (src/services/order-service/src/domain/OrderAggregate.ts),
  - the `OrderService.cancelOrder` refund computation
    (src/services/order-service/src/services/orderService.ts),
  - the inventory record with its instance methods
    (inventory-service Inventory model) and the `InventoryService` /
    `OrderCreatedHandler` reservation path,
  - the `CircuitBreaker` and `RetryHandler` resilience wrappers
    (shared circuitBreaker utility).

  TS `number` values are modelled as `ℚ` for money amounts (no floating
  rounding is exercised by the properties below) and as `ℤ` for inventory
  quantities (the schema validates them to be integers).  Event `id` and
  `timestamp` fields are generated nondeterministically in the source and
  are never read by any state-changing code; they are omitted from the
  event model.
-/

namespace MicroPulse

/-! ## Order aggregate: data model (shared/middleware/common.ts) -/

/-- `OrderStatus` enum from shared/middleware/common.ts. -/
inductive OrderStatus where
  | PENDING
  | CONFIRMED
  | PROCESSING
  | SHIPPED
  | DELIVERED
  | CANCELLED
deriving DecidableEq

/-- The string value of each `OrderStatus` enum member. -/
def statusStr : OrderStatus → String
  | .PENDING => "pending"
  | .CONFIRMED => "confirmed"
  | .PROCESSING => "processing"
  | .SHIPPED => "shipped"
  | .DELIVERED => "delivered"
  | .CANCELLED => "cancelled"

/-- `OrderItem` interface from shared/middleware/common.ts. -/
structure OrderItem where
  productId : String
  quantity : ℚ
  price : ℚ
  name : String
deriving DecidableEq

/-- `Address` interface from shared/middleware/common.ts. -/
structure Address where
  street : String
  city : String
  state : String
  zipCode : String
  country : String
deriving DecidableEq

/-- The payload (`data` field) of each order domain event, one variant per
event type handled by `OrderAggregate.applyEvent`. -/
inductive EventData where
  | orderCreated (orderId userId : String) (items : List OrderItem)
      (totalAmount : ℚ) (shippingAddress : Address) (paymentMethod : String)
  | orderStatusUpdated (orderId : String) (oldStatus newStatus : OrderStatus)
      (updatedBy : Option String)
  | orderPaymentProcessed (orderId : String) (paymentStatus : String)
      (transactionId paymentGateway : Option String)
  | orderShipped (orderId trackingNumber carrier : String)
      (estimatedDelivery : Option Nat)
  | orderCancelled (orderId reason : String) (cancelledBy : Option String)
      (refundAmount : Option ℚ)
deriving DecidableEq

/-- `BaseEvent` as produced by `createEvent` (shared/utils/src/eventBus.ts);
the nondeterministic `id` and `timestamp` are never read back and omitted. -/
structure BaseEvent where
  aggregateId : String
  aggregateType : String
  version : Nat
  data : EventData
deriving DecidableEq

/-! ## Order aggregate: state and event application
    (src/services/order-service/src/domain/OrderAggregate.ts) -/

/-- The private state of `OrderAggregate`. -/
structure OrderAggregate where
  id : String
  userId : String
  items : List OrderItem
  totalAmount : ℚ
  status : OrderStatus
  shippingAddress : Address
  paymentMethod : String
  paymentStatus : String
  version : Nat
  uncommittedEvents : List BaseEvent
deriving DecidableEq

/-- The `OrderAggregate` constructor with a supplied id: every field takes
its default value (`{} as Address` becomes the all-empty address). -/
def newOrderAggregate (id : String) : OrderAggregate :=
  { id := id
    userId := ""
    items := []
    totalAmount := 0
    status := .PENDING
    shippingAddress := ⟨"", "", "", "", ""⟩
    paymentMethod := ""
    paymentStatus := "pending"
    version := 0
    uncommittedEvents := [] }

/-- `OrderAggregate.applyEvent`: dispatches on the event type to the private
`applyOrderCreated` / `applyOrderStatusUpdated` / `applyOrderPaymentProcessed`
/ `applyOrderShipped` / `applyOrderCancelled` reducer, then records the event
version and pushes the event onto the uncommitted buffer. -/
def applyEvent (a : OrderAggregate) (e : BaseEvent) : OrderAggregate :=
  let a' : OrderAggregate :=
    match e.data with
    | .orderCreated _ userId items totalAmount shippingAddress paymentMethod =>
        { a with userId := userId, items := items, totalAmount := totalAmount,
                 shippingAddress := shippingAddress,
                 paymentMethod := paymentMethod, status := .PENDING }
    | .orderStatusUpdated _ _ newStatus _ => { a with status := newStatus }
    | .orderPaymentProcessed _ paymentStatus _ _ =>
        { a with paymentStatus := paymentStatus }
    | .orderShipped _ _ _ _ => a
    | .orderCancelled _ _ _ _ => a
  { a' with version := e.version,
            uncommittedEvents := a.uncommittedEvents ++ [e] }

/-- Result of a command method on the mutable aggregate: either the updated
state, or a thrown error message together with the state at the moment of the
throw (TypeScript mutations performed before a throw persist on the object). -/
inductive CmdResult where
  | ok (s : OrderAggregate)
  | err (msg : String) (s : OrderAggregate)
deriving DecidableEq

/-- The state carried by a `CmdResult` (the object state after the call,
whether or not it threw). -/
def CmdResult.state : CmdResult → OrderAggregate
  | .ok s => s
  | .err _ s => s

/-- Whether the command completed without throwing. -/
def CmdResult.isOk : CmdResult → Bool
  | .ok _ => true
  | .err _ _ => false

/-- `OrderAggregate.isValidStatusTransition`: the `validTransitions` record
lookup followed by `includes`. -/
def isValidStatusTransition (currentStatus newStatus : OrderStatus) : Bool :=
  match currentStatus with
  | .PENDING => newStatus = .CONFIRMED || newStatus = .CANCELLED
  | .CONFIRMED => newStatus = .PROCESSING || newStatus = .CANCELLED
  | .PROCESSING => newStatus = .SHIPPED || newStatus = .CANCELLED
  | .SHIPPED => newStatus = .DELIVERED
  | .DELIVERED => false
  | .CANCELLED => false

/-- `OrderAggregate.createOrder`. -/
def createOrder (a : OrderAggregate) (userId : String) (items : List OrderItem)
    (shippingAddress : Address) (paymentMethod : String) : CmdResult :=
  if a.version > 0 then .err "Order already exists" a
  else if items.isEmpty then .err "Order must have at least one item" a
  else
    let totalAmount := items.foldl (fun total item => total + item.price * item.quantity) 0
    if totalAmount ≤ 0 then .err "Order total must be greater than zero" a
    else
      .ok (applyEvent a
        ⟨a.id, "Order", a.version + 1,
         .orderCreated a.id userId items totalAmount shippingAddress paymentMethod⟩)

/-- `OrderAggregate.updateStatus`. -/
def updateStatus (a : OrderAggregate) (newStatus : OrderStatus)
    (updatedBy : Option String) : CmdResult :=
  if a.version = 0 then .err "Order does not exist" a
  else if a.status = newStatus then .ok a
  else if isValidStatusTransition a.status newStatus then
    .ok (applyEvent a
      ⟨a.id, "Order", a.version + 1,
       .orderStatusUpdated a.id a.status newStatus updatedBy⟩)
  else
    .err ("Invalid status transition from " ++ statusStr a.status
          ++ " to " ++ statusStr newStatus) a

/-- `OrderAggregate.processPayment`: applies `OrderPaymentProcessed`, then,
when the payment completed while the order is still `PENDING`, cascades
`updateStatus(CONFIRMED)`. -/
def processPayment (a : OrderAggregate) (paymentStatus : String)
    (transactionId paymentGateway : Option String) : CmdResult :=
  if a.version = 0 then .err "Order does not exist" a
  else
    let a1 := applyEvent a
      ⟨a.id, "Order", a.version + 1,
       .orderPaymentProcessed a.id paymentStatus transactionId paymentGateway⟩
    if paymentStatus = "completed" ∧ a1.status = .PENDING then
      updateStatus a1 .CONFIRMED none
    else .ok a1

/-- `OrderAggregate.shipOrder`: requires `PROCESSING`, applies `OrderShipped`,
cascades `updateStatus(SHIPPED)`. -/
def shipOrder (a : OrderAggregate) (trackingNumber carrier : String)
    (estimatedDelivery : Option Nat) : CmdResult :=
  if a.version = 0 then .err "Order does not exist" a
  else if a.status ≠ .PROCESSING then
    .err "Order must be in processing status to ship" a
  else
    let a1 := applyEvent a
      ⟨a.id, "Order", a.version + 1,
       .orderShipped a.id trackingNumber carrier estimatedDelivery⟩
    updateStatus a1 .SHIPPED none

/-- `OrderAggregate.cancelOrder`: rejects `DELIVERED`/`CANCELLED`, applies
`OrderCancelled`, cascades `updateStatus(CANCELLED)`. -/
def cancelOrder (a : OrderAggregate) (reason : String)
    (cancelledBy : Option String) (refundAmount : Option ℚ) : CmdResult :=
  if a.version = 0 then .err "Order does not exist" a
  else if a.status = .DELIVERED ∨ a.status = .CANCELLED then
    .err ("Cannot cancel order with status " ++ statusStr a.status) a
  else
    let a1 := applyEvent a
      ⟨a.id, "Order", a.version + 1,
       .orderCancelled a.id reason cancelledBy refundAmount⟩
    updateStatus a1 .CANCELLED none

/-- Folding `applyEvent` over an event list. -/
def applyEvents (a : OrderAggregate) (es : List BaseEvent) : OrderAggregate :=
  es.foldl applyEvent a

/-- `OrderAggregate.fromEvents`: rejects the empty stream, replays every event
onto a fresh aggregate built from the first event's `aggregateId`, then clears
the uncommitted buffer. -/
def fromEvents : List BaseEvent → Except String OrderAggregate
  | [] => .error "Cannot create aggregate from empty event stream"
  | e :: rest =>
    .ok { applyEvents (newOrderAggregate e.aggregateId) (e :: rest) with
          uncommittedEvents := [] }

/-- `OrderService.cancelOrder` (orderService.ts): computes the refund — the
full total when the current status is `CONFIRMED`, `undefined` otherwise —
and passes it to the aggregate's `cancelOrder`. -/
def svcCancelOrder (a : OrderAggregate) (reason : String)
    (cancelledBy : Option String) : CmdResult :=
  let refundAmount := if a.status = .CONFIRMED then some a.totalAmount else none
  cancelOrder a reason cancelledBy refundAmount

/-! ## Inventory record (inventory-service Inventory mongoose model) -/

/-- Movement `type` enum of the `movements` sub-schema. -/
inductive MovementType where
  | IN
  | OUT
  | RESERVED
  | RELEASED
  | ADJUSTMENT
deriving DecidableEq

/-- One entry of the append-only `movements` audit log (the nondeterministic
`timestamp` default is omitted). -/
structure Movement where
  type : MovementType
  quantity : ℤ
  reason : String
  reference : Option String
  userId : Option String
deriving DecidableEq

/-- The fields of an inventory document that the reservation logic reads or
writes (location/alerts/timestamps are never consulted by it). -/
structure InventoryRecord where
  productId : String
  quantity : ℤ
  reservedQuantity : ℤ
  lowStockThreshold : ℤ
  movements : List Movement
deriving DecidableEq

/-- The `availableQuantity` virtual: `max(0, quantity - reservedQuantity)`. -/
def availableQuantity (inv : InventoryRecord) : ℤ :=
  max 0 (inv.quantity - inv.reservedQuantity)

/-- `document.save()`: mongoose runs the schema validators (`quantity` and
`reservedQuantity` must be non-negative) and the pre-save hook rejecting
`reservedQuantity > quantity`; a passing document is persisted unchanged. -/
def saveRecord (inv : InventoryRecord) : Except String InventoryRecord :=
  if inv.quantity < 0 then .error "Quantity cannot be negative"
  else if inv.reservedQuantity < 0 then .error "Reserved quantity cannot be negative"
  else if inv.reservedQuantity > inv.quantity then
    .error "Reserved quantity cannot exceed total quantity"
  else .ok inv

/-- `inventorySchema.methods.reserve`. -/
def reserve (inv : InventoryRecord) (quantity : ℤ) (reason : String)
    (reference userId : Option String) : Except String InventoryRecord :=
  if quantity ≤ 0 then .error "Reserve quantity must be positive"
  else if availableQuantity inv < quantity then
    .error "Insufficient available quantity to reserve"
  else
    saveRecord
      { inv with reservedQuantity := inv.reservedQuantity + quantity,
                 movements := inv.movements
                   ++ [⟨.RESERVED, quantity, reason, reference, userId⟩] }

/-- `inventorySchema.methods.release`. -/
def release (inv : InventoryRecord) (quantity : ℤ) (reason : String)
    (reference userId : Option String) : Except String InventoryRecord :=
  if quantity ≤ 0 then .error "Release quantity must be positive"
  else if inv.reservedQuantity < quantity then
    .error "Cannot release more than reserved quantity"
  else
    saveRecord
      { inv with reservedQuantity := inv.reservedQuantity - quantity,
                 movements := inv.movements
                   ++ [⟨.RELEASED, quantity, reason, reference, userId⟩] }

/-- `inventorySchema.methods.adjust`. -/
def adjust (inv : InventoryRecord) (newQuantity : ℤ) (reason : String)
    (userId : Option String) : Except String InventoryRecord :=
  if newQuantity < 0 then .error "Quantity cannot be negative"
  else if newQuantity < inv.reservedQuantity then
    .error "New quantity cannot be less than reserved quantity"
  else
    saveRecord
      { inv with quantity := newQuantity,
                 movements := inv.movements
                   ++ [⟨.ADJUSTMENT, newQuantity - inv.quantity, reason, none, userId⟩] }

/-- `inventorySchema.methods.addStock`. -/
def addStock (inv : InventoryRecord) (quantity : ℤ) (reason : String)
    (reference userId : Option String) : Except String InventoryRecord :=
  if quantity ≤ 0 then .error "Add quantity must be positive"
  else
    saveRecord
      { inv with quantity := inv.quantity + quantity,
                 movements := inv.movements
                   ++ [⟨.IN, quantity, reason, reference, userId⟩] }

/-- `inventorySchema.methods.removeStock`. -/
def removeStock (inv : InventoryRecord) (quantity : ℤ) (reason : String)
    (reference userId : Option String) : Except String InventoryRecord :=
  if quantity ≤ 0 then .error "Remove quantity must be positive"
  else if inv.quantity < quantity then .error "Insufficient quantity to remove"
  else
    saveRecord
      { inv with quantity := inv.quantity - quantity,
                 movements := inv.movements
                   ++ [⟨.OUT, quantity, reason, reference, userId⟩] }

/-- `InventoryService.initializeInventory` (the document it constructs and
saves; the duplicate-product conflict check lives at the store level). -/
def initializeInventory (productId : String) (initialStock : ℤ)
    (reason : String) (userId : Option String) : Except String InventoryRecord :=
  saveRecord
    { productId := productId
      quantity := initialStock
      reservedQuantity := 0
      lowStockThreshold := 10
      movements :=
        if initialStock > 0 then [⟨.IN, initialStock, reason, none, userId⟩] else [] }

/-- The inventory operations of claim C4 that act on an existing record. -/
inductive InvOp where
  | opReserve (quantity : ℤ) (reason : String) (reference userId : Option String)
  | opRelease (quantity : ℤ) (reason : String) (reference userId : Option String)
  | opAdjust (newQuantity : ℤ) (reason : String) (userId : Option String)
  | opAddStock (quantity : ℤ) (reason : String) (reference userId : Option String)
  | opRemoveStock (quantity : ℤ) (reason : String) (reference userId : Option String)

/-- Dispatch an `InvOp` to the corresponding instance method. -/
def applyInvOp (inv : InventoryRecord) : InvOp → Except String InventoryRecord
  | .opReserve q r ref u => reserve inv q r ref u
  | .opRelease q r ref u => release inv q r ref u
  | .opAdjust q r u => adjust inv q r u
  | .opAddStock q r ref u => addStock inv q r ref u
  | .opRemoveStock q r ref u => removeStock inv q r ref u

/-! ## Inventory store: `InventoryService.reserveStock` and the
    `OrderCreatedHandler` saga step -/

/-- The inventory collection, as the list of its documents (productId is
unique by index). -/
abbrev InvStore := List InventoryRecord

/-- `Inventory.findByProductId`. -/
def findByProductId (st : InvStore) (productId : String) : Option InventoryRecord :=
  st.find? (fun r => r.productId = productId)

/-- Persisting a saved document back into the collection (mongoose `save`
overwrites the document with the matching `productId`). -/
def updateRecord (st : InvStore) (productId : String)
    (inv : InventoryRecord) : InvStore :=
  st.map (fun r => if r.productId = productId then inv else r)

/-- `InventoryService.reserveStock`: on a missing record, auto-initializes an
empty one and rejects any positive request; otherwise checks availability and
calls `reserve`.  The handler never passes a `userId`. -/
def reserveStock (st : InvStore) (productId : String) (quantity : ℤ)
    (reason : String) (reference : Option String) : Except String InvStore :=
  match findByProductId st productId with
  | none =>
    (match initializeInventory productId 0 "Auto-initialized for reservation" none with
     | .error m => .error m
     | .ok newInv =>
       if quantity > 0 then
         .error ("Insufficient stock for product " ++ productId)
       else .ok (st ++ [newInv]))
  | some inv =>
    if availableQuantity inv < quantity then
      .error ("Insufficient stock for product " ++ productId)
    else
      match reserve inv quantity reason reference none with
      | .error m => .error m
      | .ok inv' => .ok (updateRecord st productId inv')

/-- `OrderCreatedHandler.handle`: for every `(productId, quantity)` item of
the `OrderCreated` event, `reserveStock` with `reference = orderId`. -/
def handleOrderCreated (st : InvStore) (orderId : String) :
    List (String × ℤ) → Except String InvStore
  | [] => .ok st
  | (productId, quantity) :: rest =>
    match reserveStock st productId quantity
        ("Order reservation for order " ++ orderId) (some orderId) with
    | .error m => .error m
    | .ok st' => handleOrderCreated st' orderId rest

/-! ## Resilience wrappers (shared circuitBreaker utility) -/

/-- A thrown JS error, as far as the resilience code inspects it:
its `name` and its `message`. -/
structure ErrInfo where
  name : String
  message : String
deriving DecidableEq

/-- `CircuitBreakerOptions`. -/
structure CircuitBreakerOptions where
  failureThreshold : Nat
  resetTimeout : Nat
  monitoringPeriod : Nat
  expectedErrors : List String
deriving DecidableEq

/-- `defaultCircuitBreakerOptions` with the documented environment defaults
(threshold 5, reset timeout 30000 ms). -/
def defaultCircuitBreakerOptions : CircuitBreakerOptions :=
  { failureThreshold := 5
    resetTimeout := 30000
    monitoringPeriod := 10000
    expectedErrors := ["ValidationError", "AuthenticationError", "AuthorizationError"] }

/-- The circuit breaker state enum. -/
inductive CBState where
  | CLOSED
  | OPEN
  | HALF_OPEN
deriving DecidableEq

/-- The mutable fields of `CircuitBreaker`; wall-clock instants are modelled
as natural numbers of milliseconds. -/
structure CircuitBreaker where
  state : CBState
  failureCount : Nat
  lastFailureTime : Option Nat
  nextAttempt : Option Nat
deriving DecidableEq

/-- A freshly constructed circuit breaker. -/
def newCircuitBreaker : CircuitBreaker :=
  { state := .CLOSED, failureCount := 0, lastFailureTime := none, nextAttempt := none }

/-- Whether `pre` is a prefix of `l` (character-list level). -/
def charsPrefix : List Char → List Char → Bool
  | [], _ => true
  | _ :: _, [] => false
  | a :: as, b :: bs => a = b && charsPrefix as bs

/-- Whether `sub` occurs contiguously inside `l` (JS `String.includes`). -/
def charsContains (sub : List Char) : List Char → Bool
  | [] => sub.isEmpty
  | b :: bs => charsPrefix sub (b :: bs) || charsContains sub bs

/-- `isExpectedError`: the error message contains, or the error name equals,
one of the configured expected errors. -/
def isExpectedError (opts : CircuitBreakerOptions) (e : ErrInfo) : Bool :=
  opts.expectedErrors.any (fun expected =>
    charsContains expected.data e.message.data || e.name = expected)

/-- `shouldAttemptReset`: the current time has reached `nextAttempt`. -/
def shouldAttemptReset (cb : CircuitBreaker) (now : Nat) : Bool :=
  match cb.nextAttempt with
  | some t => t ≤ now
  | none => false

/-- `onSuccess`: clear the failure count, and close a half-open breaker. -/
def onSuccess (cb : CircuitBreaker) : CircuitBreaker :=
  { cb with failureCount := 0, lastFailureTime := none,
            state := if cb.state = .HALF_OPEN then .CLOSED else cb.state }

/-- `onFailure`: expected errors are ignored; otherwise the consecutive
failure count rises and, at the threshold, the breaker opens with
`nextAttempt = now + resetTimeout`. -/
def onFailure (opts : CircuitBreakerOptions) (cb : CircuitBreaker)
    (now : Nat) (e : ErrInfo) : CircuitBreaker :=
  if isExpectedError opts e then cb
  else
    let failureCount := cb.failureCount + 1
    if failureCount ≥ opts.failureThreshold then
      { cb with failureCount := failureCount, lastFailureTime := some now,
                state := .OPEN, nextAttempt := some (now + opts.resetTimeout) }
    else
      { cb with failureCount := failureCount, lastFailureTime := some now }

/-- Outcome of one `execute` call: either the breaker rejected the call
without invoking the wrapped function, or the function ran (with the given
outcome re-raised or returned) and the breaker updated itself. -/
inductive CBResult where
  | rejected (cb : CircuitBreaker)
  | completed (outcome : Except ErrInfo Unit) (cb : CircuitBreaker)

/-- The breaker state after an `execute` call. -/
def CBResult.after : CBResult → CircuitBreaker
  | .rejected cb => cb
  | .completed _ cb => cb

/-- Whether the wrapped function was actually invoked. -/
def CBResult.invoked : CBResult → Bool
  | .rejected _ => false
  | .completed _ _ => true

/-- `CircuitBreaker.execute` at time `now`, with the wrapped function's
behaviour (when invoked) given by `outcome`. -/
def cbExecute (opts : CircuitBreakerOptions) (cb : CircuitBreaker) (now : Nat)
    (outcome : Except ErrInfo Unit) : CBResult :=
  let entry : Option CircuitBreaker :=
    if cb.state = .OPEN then
      if shouldAttemptReset cb now then some { cb with state := .HALF_OPEN }
      else none
    else some cb
  match entry with
  | none => .rejected cb
  | some cb1 =>
    match outcome with
    | .ok _ => .completed outcome (onSuccess cb1)
    | .error e => .completed outcome (onFailure opts cb1 now e)

/-! ## Retry handler -/

/-- `RetryOptions`; the random jitter draw is supplied explicitly to
`calculateDelay`. -/
structure RetryOptions where
  maxAttempts : Nat
  baseDelay : ℚ
  maxDelay : ℚ
  backoffMultiplier : ℚ
  jitter : Bool
  retryCondition : ErrInfo → Bool

/-- `defaultRetryOptions`: 3 attempts, base 1000 ms, cap 10000 ms,
multiplier 2, jitter on; only `ValidationError`, `AuthenticationError`
and `AuthorizationError` are excluded from retry. -/
def defaultRetryOptions : RetryOptions :=
  { maxAttempts := 3
    baseDelay := 1000
    maxDelay := 10000
    backoffMultiplier := 2
    jitter := true
    retryCondition := fun e =>
      !(["ValidationError", "AuthenticationError", "AuthorizationError"].contains e.name) }

/-- The attempt loop of `RetryHandler.execute`: `fuel` is the number of
attempts still allowed, `attempt` the 1-based index of the current one.  The
result records the attempt at which the call returned or finally threw. -/
def retryLoop (fn : Nat → Except ErrInfo Unit) (cond : ErrInfo → Bool) :
    (attempt fuel : Nat) → Except (ErrInfo × Nat) (Unit × Nat)
  | _, 0 => .error (⟨"Error", "no attempts"⟩, 0)
  | attempt, fuel + 1 =>
    match fn attempt with
    | .ok v => .ok (v, attempt)
    | .error e =>
      if cond e = false then .error (e, attempt)
      else if fuel = 0 then .error (e, attempt)
      else retryLoop fn cond (attempt + 1) fuel

/-- `RetryHandler.execute` with the wrapped function's behaviour on each
attempt given by `fn`. -/
def retryExecute (opts : RetryOptions) (fn : Nat → Except ErrInfo Unit) :
    Except (ErrInfo × Nat) (Unit × Nat) :=
  retryLoop fn opts.retryCondition 1 opts.maxAttempts

/-- `RetryHandler.calculateDelay`: exponential backoff capped at `maxDelay`,
then, when jitter is on, scaled by `0.5 + rand * 0.5` where `rand` is the
`Math.random()` draw in `[0, 1)`, and floored. -/
def calculateDelay (opts : RetryOptions) (attempt : Nat) (rand : ℚ) : ℤ :=
  let backoff := opts.baseDelay * opts.backoffMultiplier ^ (attempt - 1)
  let capped := min backoff opts.maxDelay
  let jittered := if opts.jitter then capped * (1/2 + rand * (1/2)) else capped
  Int.floor jittered

/-! ## Spec-side transition graph and command sequences -/

/-- The allowed transition graph exactly as the spec enumerates it:
`PENDING→{CONFIRMED,CANCELLED}`, `CONFIRMED→{PROCESSING,CANCELLED}`,
`PROCESSING→{SHIPPED,CANCELLED}`, `SHIPPED→{DELIVERED}`; `DELIVERED` and
`CANCELLED` terminal.  Kept separate from `isValidStatusTransition` so the
source table can be compared against the spec's words. -/
def specTransitionGraph : OrderStatus → OrderStatus → Bool
  | .PENDING, .CONFIRMED => true
  | .PENDING, .CANCELLED => true
  | .CONFIRMED, .PROCESSING => true
  | .CONFIRMED, .CANCELLED => true
  | .PROCESSING, .SHIPPED => true
  | .PROCESSING, .CANCELLED => true
  | .SHIPPED, .DELIVERED => true
  | _, _ => false

/-- One aggregate command, with its arguments. -/
inductive Command where
  | create (userId : String) (items : List OrderItem) (addr : Address) (pm : String)
  | update (newStatus : OrderStatus) (updatedBy : Option String)
  | payment (paymentStatus : String) (transactionId paymentGateway : Option String)
  | ship (trackingNumber carrier : String) (estimatedDelivery : Option Nat)
  | cancel (reason : String) (cancelledBy : Option String) (refundAmount : Option ℚ)

/-- Dispatch a command to the aggregate method it names. -/
def runCommand (a : OrderAggregate) : Command → CmdResult
  | .create u i ad p => createOrder a u i ad p
  | .update ns ub => updateStatus a ns ub
  | .payment ps t g => processPayment a ps t g
  | .ship tn c eta => shipOrder a tn c eta
  | .cancel r cb ra => cancelOrder a r cb ra

/-- Run a command sequence, succeeding only when every command does. -/
def runAll (a : OrderAggregate) : List Command → Option OrderAggregate
  | [] => some a
  | c :: cs =>
    match runCommand a c with
    | .ok a' => runAll a' cs
    | .err _ _ => none

/-- Replay invariant of a live aggregate: every buffered event carries the
aggregate's id, and replaying the buffer onto a fresh aggregate of the same
id reproduces the aggregate exactly. -/
def replayInv (a : OrderAggregate) : Prop :=
  (∀ e ∈ a.uncommittedEvents, e.aggregateId = a.id) ∧
  applyEvents (newOrderAggregate a.id) a.uncommittedEvents = a

/-! ## Concrete fixtures used by witnesses and counterexamples -/

/-- A concrete shipping address. -/
def witAddr : Address := ⟨"1 Main St", "Nairobi", "NBO", "00100", "KE"⟩

/-- The item of spec Scenario A: product p1, quantity 2, price 10. -/
def witItem : OrderItem := ⟨"p1", 2, 10, "Widget"⟩

/-- The `OrderCreated` event of the fixture order o1. -/
def ev1 : BaseEvent := ⟨"o1", "Order", 1, .orderCreated "o1" "u1" [witItem] 20 witAddr "card"⟩

/-- The `OrderStatusUpdated` event confirming o1. -/
def ev2 : BaseEvent := ⟨"o1", "Order", 2, .orderStatusUpdated "o1" .PENDING .CONFIRMED none⟩

/-- The `OrderStatusUpdated` event moving o1 to PROCESSING. -/
def ev3 : BaseEvent := ⟨"o1", "Order", 3, .orderStatusUpdated "o1" .CONFIRMED .PROCESSING none⟩

/-- The `OrderStatusUpdated` event moving o1 to SHIPPED. -/
def ev4 : BaseEvent := ⟨"o1", "Order", 4, .orderStatusUpdated "o1" .PROCESSING .SHIPPED none⟩

/-- The freshly created order o1 (version 1, status PENDING, total 20);
reachability from `createOrder` is proved below. -/
def pendingAgg : OrderAggregate :=
  { id := "o1", userId := "u1", items := [witItem], totalAmount := 20,
    status := .PENDING, shippingAddress := witAddr, paymentMethod := "card",
    paymentStatus := "pending", version := 1, uncommittedEvents := [ev1] }

/-- The same order after `updateStatus(CONFIRMED)`. -/
def confirmedAgg : OrderAggregate :=
  { pendingAgg with status := .CONFIRMED, version := 2,
                    uncommittedEvents := [ev1, ev2] }

/-- The same order after a further `updateStatus(PROCESSING)`. -/
def processingAgg : OrderAggregate :=
  { pendingAgg with status := .PROCESSING, version := 3,
                    uncommittedEvents := [ev1, ev2, ev3] }

/-- The same order after a further `updateStatus(SHIPPED)`. -/
def shippedAgg : OrderAggregate :=
  { pendingAgg with status := .SHIPPED, version := 4,
                    uncommittedEvents := [ev1, ev2, ev3, ev4] }

/-- A two-command history: create then confirm. -/
def c2Cmds : List Command :=
  [Command.create "u1" [witItem] witAddr "card", Command.update .CONFIRMED none]

/-- Inventory store with product p1 in stock (quantity 10, none reserved). -/
def c3Store : InvStore := [⟨"p1", 10, 0, 10, []⟩]

/-- The RESERVED movement written for order o1. -/
def c3Mv : Movement := ⟨.RESERVED, 2, "Order reservation for order o1", some "o1", none⟩

/-- The store after one delivery of the `OrderCreated` event for order o1. -/
def c3Store1 : InvStore := [⟨"p1", 10, 2, 10, [c3Mv]⟩]

/-- The store after the second delivery of the same event. -/
def c3Store2 : InvStore := [⟨"p1", 10, 4, 10, [c3Mv, c3Mv]⟩]

/-- A concrete inventory record for the C4 witness. -/
def c4Inv : InventoryRecord := ⟨"p1", 10, 0, 10, []⟩

/-- `c4Inv` after reserving 2 units for order o1. -/
def c4Inv' : InventoryRecord := ⟨"p1", 10, 2, 10, [⟨.RESERVED, 2, "r", some "o1", none⟩]⟩

/-! ## Helper lemmas -/

/-- The source transition table agrees with the spec's transition graph. -/
theorem isValid_eq_specGraph (c n : OrderStatus) :
    isValidStatusTransition c n = specTransitionGraph c n := by
  cases c <;> cases n <;> rfl

/-- `applyEvent` never changes the aggregate id. -/
theorem applyEvent_id (a : OrderAggregate) (e : BaseEvent) :
    (applyEvent a e).id = a.id := by
  obtain ⟨aid, aty, v, d⟩ := e
  cases d <;> rfl

/-- `applyEvent` appends the event to the uncommitted buffer. -/
theorem applyEvent_buffer (a : OrderAggregate) (e : BaseEvent) :
    (applyEvent a e).uncommittedEvents = a.uncommittedEvents ++ [e] := by
  obtain ⟨aid, aty, v, d⟩ := e
  cases d <;> rfl

/-- The running total computed by `createOrder` is the spec's Σ(price·qty). -/
theorem total_foldl_eq_sum (items : List OrderItem) :
    items.foldl (fun total item => total + item.price * item.quantity) 0 =
      (items.map (fun item => item.price * item.quantity)).sum := by
  suffices h : ∀ c : ℚ, items.foldl (fun total item => total + item.price * item.quantity) c =
      c + (items.map (fun item => item.price * item.quantity)).sum by
    simpa using h 0
  induction items with
  | nil => intro c; simp
  | cons i is ih => intro c; simp [List.foldl_cons, ih, add_assoc]

/-- The fixture order is the order produced by `createOrder` (Scenario A). -/
theorem pendingAgg_reachable :
    createOrder (newOrderAggregate "o1") "u1" [witItem] witAddr "card" =
      .ok pendingAgg := by
  simp only [createOrder, newOrderAggregate]
  norm_num [witItem, applyEvent, pendingAgg, ev1, witAddr]

/-- The confirmed fixture is reached by `updateStatus(CONFIRMED)`. -/
theorem confirmedAgg_reachable :
    updateStatus pendingAgg .CONFIRMED none = .ok confirmedAgg := by
  decide

/-- The processing fixture is reached by a further `updateStatus(PROCESSING)`. -/
theorem processingAgg_reachable :
    updateStatus confirmedAgg .PROCESSING none = .ok processingAgg := by
  decide

/-- The shipped fixture is reached by a further `updateStatus(SHIPPED)`. -/
theorem shippedAgg_reachable :
    updateStatus processingAgg .SHIPPED none = .ok shippedAgg := by
  decide

/-! ## C1: updateStatus follows the transition graph -/

/-- C1: on an existing order (version ≠ 0) and a genuine change
(`newStatus ≠ status`), `updateStatus` succeeds exactly when the requested
transition is in the spec's graph; any other transition fails with the
InvalidTransition error and leaves the aggregate state unchanged (the thrown
error carries the untouched state). -/
theorem updateStatus_follows_transition_graph (a : OrderAggregate)
    (h : a.version ≠ 0) (ns : OrderStatus) (ub : Option String)
    (hne : a.status ≠ ns) :
    ((∃ a', updateStatus a ns ub = .ok a' ∧ a'.status = ns) ↔
       specTransitionGraph a.status ns = true) ∧
    (specTransitionGraph a.status ns = false →
       updateStatus a ns ub =
         .err ("Invalid status transition from " ++ statusStr a.status
               ++ " to " ++ statusStr ns) a) := by
  unfold updateStatus
  rw [if_neg h, if_neg hne, isValid_eq_specGraph]
  constructor
  · constructor
    · rintro ⟨a', ha, _⟩
      by_cases hs : specTransitionGraph a.status ns = true
      · exact hs
      · rw [if_neg (by simp [hs])] at ha
        cases ha
    · intro hs
      rw [if_pos hs]
      exact ⟨_, rfl, rfl⟩
  · intro hs
    rw [if_neg (by simp [hs])]

/-- C1 witness: a freshly created order is PENDING with version 1; requesting
CONFIRMED is in the graph and succeeds. -/
theorem updateStatus_follows_transition_graph_witness :
    pendingAgg.version ≠ 0 ∧ pendingAgg.status ≠ .CONFIRMED ∧
    (((∃ a', updateStatus pendingAgg .CONFIRMED none = .ok a' ∧
         a'.status = .CONFIRMED) ↔
       specTransitionGraph pendingAgg.status .CONFIRMED = true) ∧
     (specTransitionGraph pendingAgg.status .CONFIRMED = false →
       updateStatus pendingAgg .CONFIRMED none =
         .err ("Invalid status transition from " ++ statusStr pendingAgg.status
               ++ " to " ++ statusStr .CONFIRMED) pendingAgg)) :=
  ⟨by decide, by decide,
   updateStatus_follows_transition_graph pendingAgg (by decide) .CONFIRMED none
     (by decide)⟩

/-! ## C7: createOrder validation and initial state -/

/-- C7: on a fresh aggregate, `createOrder` fails (throwing, with no event
emitted and the state untouched) when the item list is empty or the computed
total Σ(price·qty) is ≤ 0; otherwise it succeeds, emitting exactly the one
`OrderCreated` event with version 1, status PENDING and the computed total. -/
theorem createOrder_spec (id userId : String) (items : List OrderItem)
    (addr : Address) (pm : String) :
    ((items = [] ∨ (items.map (fun item => item.price * item.quantity)).sum ≤ 0) →
       ∃ m, createOrder (newOrderAggregate id) userId items addr pm =
         .err m (newOrderAggregate id)) ∧
    (items ≠ [] → 0 < (items.map (fun item => item.price * item.quantity)).sum →
       createOrder (newOrderAggregate id) userId items addr pm =
         .ok { newOrderAggregate id with
               userId := userId, items := items,
               totalAmount := (items.map (fun item => item.price * item.quantity)).sum,
               shippingAddress := addr, paymentMethod := pm,
               status := .PENDING, version := 1,
               uncommittedEvents := [⟨id, "Order", 1,
                 .orderCreated id userId items
                   ((items.map (fun item => item.price * item.quantity)).sum)
                   addr pm⟩] }) := by
  have hv : ¬ ((newOrderAggregate id).version > 0) := by simp [newOrderAggregate]
  constructor
  · intro hcond
    by_cases he : items.isEmpty
    · refine ⟨"Order must have at least one item", ?_⟩
      unfold createOrder
      rw [if_neg hv, if_pos he]
    · have hle : (items.map (fun item => item.price * item.quantity)).sum ≤ 0 := by
        rcases hcond with he' | hle
        · subst he'; exact absurd rfl he
        · exact hle
      refine ⟨"Order total must be greater than zero", ?_⟩
      unfold createOrder
      rw [if_neg hv, if_neg (by simp [he]), if_pos (by rw [total_foldl_eq_sum]; exact hle)]
  · intro hne hpos
    have he : items.isEmpty = false := by
      cases items with
      | nil => exact absurd rfl hne
      | cons i is => rfl
    unfold createOrder
    rw [if_neg hv, if_neg (by simp [he]),
        if_neg (by rw [total_foldl_eq_sum]; exact not_le.mpr hpos),
        total_foldl_eq_sum]
    rfl

/-- C7 witness (spec Scenario A): one item with quantity 2 and price 10
yields an order with totalAmount 20, version 1, status PENDING and a single
OrderCreated event. -/
theorem createOrder_spec_witness :
    ([witItem] ≠ ([] : List OrderItem)) ∧
    (0 < (([witItem].map (fun item => item.price * item.quantity)).sum : ℚ)) ∧
    createOrder (newOrderAggregate "o1") "u1" [witItem] witAddr "card" =
      .ok { newOrderAggregate "o1" with
            userId := "u1", items := [witItem],
            totalAmount := (([witItem].map (fun item => item.price * item.quantity)).sum : ℚ),
            shippingAddress := witAddr, paymentMethod := "card",
            status := .PENDING, version := 1,
            uncommittedEvents := [⟨"o1", "Order", 1,
              .orderCreated "o1" "u1" [witItem]
                (([witItem].map (fun item => item.price * item.quantity)).sum : ℚ)
                witAddr "card"⟩] } :=
  ⟨by decide, by norm_num [witItem],
   (createOrder_spec "o1" "u1" [witItem] witAddr "card").2 (by decide)
     (by norm_num [witItem])⟩

/-! ## C10: an aggregate can be created only once -/

/-- C10: `createOrder` on an aggregate that has already applied events
(version > 0) fails with the "Order already exists" error before validating
the items (it fails for every item list, even an empty one), and the state
carried by the throw is unchanged. -/
theorem createOrder_after_creation_rejected (a : OrderAggregate)
    (h : 0 < a.version) (userId : String) (items : List OrderItem)
    (addr : Address) (pm : String) :
    createOrder a userId items addr pm = .err "Order already exists" a := by
  unfold createOrder
  rw [if_pos h]

/-- C10 witness: a created order (version 1) rejects a second `createOrder`
even with an empty (invalid) item list, leaving the state unchanged. -/
theorem createOrder_after_creation_rejected_witness :
    0 < pendingAgg.version ∧
    createOrder pendingAgg "u2" [] witAddr "mpesa" =
      .err "Order already exists" pendingAgg :=
  ⟨by decide,
   createOrder_after_creation_rejected pendingAgg (by decide) "u2" [] witAddr "mpesa"⟩

/-! ## C8: cancelOrder -/

/-- C8 counterexample: a reachable order in `SHIPPED` status — neither
`DELIVERED` nor `CANCELLED` — on which `cancelOrder` nevertheless throws
(the cascaded `updateStatus(CANCELLED)` rejects SHIPPED→CANCELLED), so the
claim's "otherwise it … ends in status CANCELLED" fails. -/
theorem cancelOrder_shipped_counterexample :
    updateStatus processingAgg .SHIPPED none = .ok shippedAgg ∧
    shippedAgg.status = .SHIPPED ∧
    shippedAgg.status ≠ .DELIVERED ∧ shippedAgg.status ≠ .CANCELLED ∧
    (svcCancelOrder shippedAgg "customer request" none).isOk = false := by
  refine ⟨?_, by decide, by decide, by decide, by decide⟩
  decide

/-- C8 (amended): on an existing order, `cancelOrder` (as invoked by
`OrderService.cancelOrder`, which computes the refund) throws for
`DELIVERED`/`CANCELLED` with the state unchanged, also throws for `SHIPPED`
(via the cascade), and for `PENDING`/`CONFIRMED`/`PROCESSING` succeeds,
ending in `CANCELLED` and emitting `OrderCancelled` (followed by the cascade's
`OrderStatusUpdated`) whose refund is the full total exactly when the order
was `CONFIRMED`, `undefined` otherwise. -/
theorem cancelOrder_amended (a : OrderAggregate) (h : a.version ≠ 0)
    (reason : String) (cb : Option String) :
    (a.status = .DELIVERED ∨ a.status = .CANCELLED →
       svcCancelOrder a reason cb =
         .err ("Cannot cancel order with status " ++ statusStr a.status) a) ∧
    (a.status = .SHIPPED → (svcCancelOrder a reason cb).isOk = false) ∧
    (a.status = .PENDING ∨ a.status = .CONFIRMED ∨ a.status = .PROCESSING →
       ∃ a', svcCancelOrder a reason cb = .ok a' ∧ a'.status = .CANCELLED ∧
         a'.uncommittedEvents = a.uncommittedEvents ++
           [⟨a.id, "Order", a.version + 1,
             .orderCancelled a.id reason cb
               (if a.status = .CONFIRMED then some a.totalAmount else none)⟩,
            ⟨a.id, "Order", a.version + 2,
             .orderStatusUpdated a.id a.status .CANCELLED none⟩]) := by
  refine ⟨?_, ?_, ?_⟩
  · intro hs
    have hnotc : ¬ a.status = .CONFIRMED := by
      rcases hs with hs | hs <;> simp [hs]
    unfold svcCancelOrder cancelOrder
    rw [if_neg hnotc, if_neg h, if_pos hs]
  · intro hs
    have hnotc : ¬ a.status = .CONFIRMED := by simp [hs]
    unfold svcCancelOrder cancelOrder
    rw [if_neg hnotc, if_neg h,
        if_neg (by rw [hs]; rintro (h' | h') <;> cases h')]
    simp only [updateStatus, applyEvent]
    rw [if_neg (by simp), if_neg (by simp [hs]),
        if_neg (by simp [hs, isValidStatusTransition])]
    rfl
  · intro hs
    have hterm : ¬ (a.status = .DELIVERED ∨ a.status = .CANCELLED) := by
      rcases hs with hs | hs | hs <;> simp [hs]
    have hvalid : isValidStatusTransition a.status .CANCELLED = true := by
      rcases hs with hs | hs | hs <;> simp [hs, isValidStatusTransition]
    have hnotcan : ¬ a.status = .CANCELLED := by
      rcases hs with hs | hs | hs <;> simp [hs]
    unfold svcCancelOrder cancelOrder
    rw [if_neg h, if_neg hterm]
    simp only [updateStatus, applyEvent]
    rw [if_neg (by simp), if_neg (by simpa using hnotcan), if_pos hvalid]
    exact ⟨_, rfl, rfl, by simp⟩

/-- C8 witness (spec Scenario B): cancelling the CONFIRMED fixture succeeds,
ends in CANCELLED, and the emitted `OrderCancelled` carries
`refundAmount = totalAmount`. -/
theorem cancelOrder_amended_witness :
    confirmedAgg.version ≠ 0 ∧
    (confirmedAgg.status = .PENDING ∨ confirmedAgg.status = .CONFIRMED ∨
      confirmedAgg.status = .PROCESSING) ∧
    (∃ a', svcCancelOrder confirmedAgg "changed mind" none = .ok a' ∧
       a'.status = .CANCELLED ∧
       a'.uncommittedEvents = confirmedAgg.uncommittedEvents ++
         [⟨confirmedAgg.id, "Order", confirmedAgg.version + 1,
           .orderCancelled confirmedAgg.id "changed mind" none
             (if confirmedAgg.status = .CONFIRMED then some confirmedAgg.totalAmount
              else none)⟩,
          ⟨confirmedAgg.id, "Order", confirmedAgg.version + 2,
           .orderStatusUpdated confirmedAgg.id confirmedAgg.status .CANCELLED none⟩]) :=
  ⟨by decide, by decide,
   (cancelOrder_amended confirmedAgg (by decide) "changed mind" none).2.2 (by decide)⟩

/-! ## C2: replay determinism -/

/-- `applyEvent` preserves the replay invariant when the event carries the
aggregate's id (as every event built by a command does). -/
theorem replayInv_applyEvent {a : OrderAggregate} {e : BaseEvent}
    (ha : replayInv a) (he : e.aggregateId = a.id) :
    replayInv (applyEvent a e) := by
  obtain ⟨h1, h2⟩ := ha
  constructor
  · intro e' he'
    rw [applyEvent_buffer] at he'
    rw [applyEvent_id]
    rcases List.mem_append.mp he' with hm | hm
    · exact h1 e' hm
    · rw [List.mem_singleton.mp hm]
      exact he
  · rw [applyEvent_id, applyEvent_buffer]
    unfold applyEvents at h2 ⊢
    rw [List.foldl_append, h2]
    rfl

/-- `updateStatus` preserves the replay invariant. -/
theorem replayInv_updateStatus {a b : OrderAggregate} {ns : OrderStatus}
    {ub : Option String} (ha : replayInv a)
    (h : updateStatus a ns ub = .ok b) : replayInv b := by
  simp only [updateStatus] at h
  split at h
  · cases h
  · split at h
    · cases h
      exact ha
    · split at h
      · cases h
        exact replayInv_applyEvent ha rfl
      · cases h

/-- `createOrder` preserves the replay invariant. -/
theorem replayInv_createOrder {a b : OrderAggregate} {u : String}
    {items : List OrderItem} {ad : Address} {p : String} (ha : replayInv a)
    (h : createOrder a u items ad p = .ok b) : replayInv b := by
  simp only [createOrder] at h
  split at h
  · cases h
  · split at h
    · cases h
    · split at h
      · cases h
      · cases h
        exact replayInv_applyEvent ha rfl

/-- `processPayment` preserves the replay invariant. -/
theorem replayInv_processPayment {a b : OrderAggregate} {ps : String}
    {t g : Option String} (ha : replayInv a)
    (h : processPayment a ps t g = .ok b) : replayInv b := by
  simp only [processPayment] at h
  split at h
  · cases h
  · split at h
    · exact replayInv_updateStatus (replayInv_applyEvent ha rfl) h
    · cases h
      exact replayInv_applyEvent ha rfl

/-- `shipOrder` preserves the replay invariant. -/
theorem replayInv_shipOrder {a b : OrderAggregate} {tn c : String}
    {eta : Option Nat} (ha : replayInv a)
    (h : shipOrder a tn c eta = .ok b) : replayInv b := by
  simp only [shipOrder] at h
  split at h
  · cases h
  · split at h
    · cases h
    · exact replayInv_updateStatus (replayInv_applyEvent ha rfl) h

/-- `cancelOrder` preserves the replay invariant. -/
theorem replayInv_cancelOrder {a b : OrderAggregate} {r : String}
    {cb : Option String} {ra : Option ℚ} (ha : replayInv a)
    (h : cancelOrder a r cb ra = .ok b) : replayInv b := by
  simp only [cancelOrder] at h
  split at h
  · cases h
  · split at h
    · cases h
    · exact replayInv_updateStatus (replayInv_applyEvent ha rfl) h

/-- Every successful command preserves the replay invariant. -/
theorem replayInv_runCommand {a b : OrderAggregate} {c : Command}
    (ha : replayInv a) (h : runCommand a c = .ok b) : replayInv b := by
  cases c with
  | create u i ad p => exact replayInv_createOrder ha h
  | update ns ub => exact replayInv_updateStatus ha h
  | payment ps t g => exact replayInv_processPayment ha h
  | ship tn cr eta => exact replayInv_shipOrder ha h
  | cancel r cb ra => exact replayInv_cancelOrder ha h

/-- A successful command sequence preserves the replay invariant. -/
theorem replayInv_runAll {cmds : List Command} :
    ∀ {a b : OrderAggregate}, replayInv a → runAll a cmds = some b →
      replayInv b := by
  induction cmds with
  | nil =>
    intro a b ha h
    cases h
    exact ha
  | cons c cs ih =>
    intro a b ha h
    unfold runAll at h
    cases hc : runCommand a c with
    | ok a' =>
      rw [hc] at h
      exact ih (replayInv_runCommand ha hc) h
    | err m s =>
      rw [hc] at h
      cases h

/-- A fresh aggregate satisfies the replay invariant. -/
theorem replayInv_new (id : String) : replayInv (newOrderAggregate id) :=
  ⟨fun e he => absurd he (List.not_mem_nil e), rfl⟩

/-- C2: replay determinism — after any successful command sequence on a fresh
aggregate, `fromEvents` applied to the full list of emitted events rebuilds
an aggregate with identical status, totalAmount, items and version, and an
empty uncommitted-event buffer. -/
theorem fromEvents_replay_determinism (id : String) (cmds : List Command)
    (a : OrderAggregate) (h : runAll (newOrderAggregate id) cmds = some a)
    (hne : a.uncommittedEvents ≠ []) :
    ∃ r, fromEvents a.uncommittedEvents = .ok r ∧
      r.status = a.status ∧ r.totalAmount = a.totalAmount ∧
      r.items = a.items ∧ r.version = a.version ∧
      r.uncommittedEvents = [] := by
  obtain ⟨h1, h2⟩ := replayInv_runAll (replayInv_new id) h
  obtain ⟨e, rest, hbuf⟩ : ∃ e rest, a.uncommittedEvents = e :: rest := by
    cases hb : a.uncommittedEvents with
    | nil => exact absurd hb hne
    | cons e rest => exact ⟨e, rest, rfl⟩
  have hid : e.aggregateId = a.id := h1 e (hbuf ▸ List.mem_cons_self e rest)
  refine ⟨{ a with uncommittedEvents := [] }, ?_, rfl, rfl, rfl, rfl, rfl⟩
  rw [hbuf]
  simp only [fromEvents]
  rw [hid, ← hbuf, h2]

/-- C2 witness: the create-then-confirm history replays to the confirmed
fixture. -/
theorem fromEvents_replay_determinism_witness :
    runAll (newOrderAggregate "o1") c2Cmds = some confirmedAgg ∧
    confirmedAgg.uncommittedEvents ≠ [] ∧
    (∃ r, fromEvents confirmedAgg.uncommittedEvents = .ok r ∧
       r.status = confirmedAgg.status ∧
       r.totalAmount = confirmedAgg.totalAmount ∧
       r.items = confirmedAgg.items ∧
       r.version = confirmedAgg.version ∧
       r.uncommittedEvents = []) := by
  have hrun : runAll (newOrderAggregate "o1") c2Cmds = some confirmedAgg := by
    simp only [c2Cmds, runAll, runCommand, pendingAgg_reachable, confirmedAgg_reachable]
  exact ⟨hrun, by decide,
    fromEvents_replay_determinism "o1" c2Cmds confirmedAgg hrun (by decide)⟩

/-! ## C4: inventory reservation bound -/

/-- A document accepted by `save` is returned unchanged and satisfies the
schema's bounds. -/
theorem saveRecord_ok {i i' : InventoryRecord} (h : saveRecord i = .ok i') :
    i' = i ∧ 0 ≤ i.reservedQuantity ∧ i.reservedQuantity ≤ i.quantity := by
  unfold saveRecord at h
  split_ifs at h with h1 h2 h3
  cases h
  exact ⟨rfl, le_of_not_lt h2, le_of_not_lt h3⟩

/-- C4: after every completed inventory operation — reserve, release, adjust,
addStock, removeStock on an existing record, or initializeInventory — the
persisted record satisfies `0 ≤ reservedQuantity ≤ quantity`; an operation
whose result would violate the bound fails in `save` and persists nothing. -/
theorem inventory_reserved_bound :
    (∀ (inv : InventoryRecord) (op : InvOp) (inv' : InventoryRecord),
       applyInvOp inv op = .ok inv' →
         0 ≤ inv'.reservedQuantity ∧ inv'.reservedQuantity ≤ inv'.quantity) ∧
    (∀ (pid : String) (stock : ℤ) (reason : String) (uid : Option String)
       (inv' : InventoryRecord),
       initializeInventory pid stock reason uid = .ok inv' →
         0 ≤ inv'.reservedQuantity ∧ inv'.reservedQuantity ≤ inv'.quantity) := by
  constructor
  · intro inv op inv' h
    cases op with
    | opReserve q r ref u =>
      simp only [applyInvOp, reserve] at h
      split at h
      · cases h
      · split at h
        · cases h
        · obtain ⟨he, hb⟩ := saveRecord_ok h
          rw [he]
          exact hb
    | opRelease q r ref u =>
      simp only [applyInvOp, release] at h
      split at h
      · cases h
      · split at h
        · cases h
        · obtain ⟨he, hb⟩ := saveRecord_ok h
          rw [he]
          exact hb
    | opAdjust q r u =>
      simp only [applyInvOp, adjust] at h
      split at h
      · cases h
      · split at h
        · cases h
        · obtain ⟨he, hb⟩ := saveRecord_ok h
          rw [he]
          exact hb
    | opAddStock q r ref u =>
      simp only [applyInvOp, addStock] at h
      split at h
      · cases h
      · obtain ⟨he, hb⟩ := saveRecord_ok h
        rw [he]
        exact hb
    | opRemoveStock q r ref u =>
      simp only [applyInvOp, removeStock] at h
      split at h
      · cases h
      · split at h
        · cases h
        · obtain ⟨he, hb⟩ := saveRecord_ok h
          rw [he]
          exact hb
  · intro pid stock reason uid inv' h
    unfold initializeInventory at h
    obtain ⟨he, hb⟩ := saveRecord_ok h
    rw [he]
    exact hb

/-- C4 witness: reserving 2 of 10 units succeeds and keeps
`0 ≤ reserved ≤ quantity`. -/
theorem inventory_reserved_bound_witness :
    applyInvOp c4Inv (.opReserve 2 "r" (some "o1") none) = .ok c4Inv' ∧
    (0 ≤ c4Inv'.reservedQuantity ∧ c4Inv'.reservedQuantity ≤ c4Inv'.quantity) :=
  ⟨rfl,
   inventory_reserved_bound.1 c4Inv (.opReserve 2 "r" (some "o1") none) c4Inv'
     rfl⟩

/-! ## C3: OrderCreated redelivery is not idempotent (code bug) -/

/-- C3: evaluating the handler at the failing input — the `OrderCreated`
event of order o1 (item p1, quantity 2) delivered twice against a store
holding 10 units of p1.  The first delivery reserves 2; the second delivery
is **not** a no-op: nothing keys on `(productId, reference)`, so it reserves
again, leaving `reservedQuantity = 4` and a duplicate RESERVED movement with
`reference = "o1"`. -/
theorem orderCreated_redelivery_not_idempotent :
    handleOrderCreated c3Store "o1" [("p1", 2)] = .ok c3Store1 ∧
    handleOrderCreated c3Store1 "o1" [("p1", 2)] = .ok c3Store2 ∧
    (c3Store1.map (fun r => r.reservedQuantity) = [2] ∧
     c3Store2.map (fun r => r.reservedQuantity) = [4]) :=
  ⟨rfl, rfl, by decide⟩

/-! ## C6: default retry predicate retries conflict errors (code bug) -/

/-- C6: evaluating `RetryHandler.execute` under `defaultRetryOptions` at the
failing input.  The default `retryCondition` excludes only `ValidationError`,
`AuthenticationError` and `AuthorizationError`; `ConflictError` is not in the
list, so a call that keeps throwing `ConflictError` is retried through all 3
attempts instead of being rethrown immediately, contradicting the code's own
"don't retry client errors (4xx)" comment and the spec.  A `ValidationError`,
by contrast, is rethrown at attempt 1. -/
theorem conflictError_is_retried :
    retryExecute defaultRetryOptions (fun _ => .error ⟨"ConflictError", "conflict"⟩) =
      .error (⟨"ConflictError", "conflict"⟩, 3) ∧
    retryExecute defaultRetryOptions (fun _ => .error ⟨"ValidationError", "bad"⟩) =
      .error (⟨"ValidationError", "bad"⟩, 1) :=
  ⟨rfl, rfl⟩

/-! ## C9: retry delay jitter -/

/-- C9 counterexample: with the default configuration at attempt 1 the
deterministic delay is d = 1000, and the claim says the jittered delay ranges
over [0.5·d, 1.5·d] = [500, 1500]; but no random draw can produce 1400 — the
code's factor `0.5 + random·0.5` never exceeds 1, so the delay always stays
below d. -/
theorem retry_jitter_counterexample :
    ¬ ∃ r : ℚ, 0 ≤ r ∧ r < 1 ∧ calculateDelay defaultRetryOptions 1 r = 1400 := by
  rintro ⟨r, h0, h1, he⟩
  have hform : calculateDelay defaultRetryOptions 1 r =
      Int.floor ((1000 : ℚ) * (1 / 2 + r * (1 / 2))) := by
    simp only [calculateDelay, defaultRetryOptions, if_true]
    rw [min_def]
    norm_num
  rw [hform] at he
  have hle := (Int.floor_eq_iff.mp he).1
  push_cast at hle
  nlinarith [h1, hle]

/-- C9 (amended): for every attempt and every random draw in [0, 1), the
delay equals ⌊d · (0.5 + 0.5·random)⌋ for d = min(base·multiplier^(attempt-1),
maxDelay): it is at least ⌊d/2⌋ and strictly below d — jitter shrinks the
delay to between 50% and 100% of the capped backoff, never above it. -/
theorem retry_delay_amended (opts : RetryOptions) (attempt : Nat) (r : ℚ)
    (hj : opts.jitter = true) (hb : 0 < opts.baseDelay)
    (hm : 0 < opts.backoffMultiplier) (hx : 0 < opts.maxDelay)
    (h0 : 0 ≤ r) (h1 : r < 1) :
    Int.floor (min (opts.baseDelay * opts.backoffMultiplier ^ (attempt - 1))
        opts.maxDelay / 2) ≤ calculateDelay opts attempt r ∧
    ((calculateDelay opts attempt r : ℚ) <
       min (opts.baseDelay * opts.backoffMultiplier ^ (attempt - 1)) opts.maxDelay) := by
  set d := min (opts.baseDelay * opts.backoffMultiplier ^ (attempt - 1)) opts.maxDelay
    with hd
  have hdpos : 0 < d := lt_min (mul_pos hb (pow_pos hm _)) hx
  have hcalc : calculateDelay opts attempt r = Int.floor (d * (1 / 2 + r * (1 / 2))) := by
    simp only [calculateDelay]
    rw [hj, if_pos rfl, ← hd]
  constructor
  · rw [hcalc]
    apply Int.floor_le_floor
    nlinarith [hdpos, h0]
  · rw [hcalc]
    calc ((Int.floor (d * (1 / 2 + r * (1 / 2))) : ℚ)) ≤ d * (1 / 2 + r * (1 / 2)) :=
          Int.floor_le _
      _ < d := by nlinarith [hdpos, h1]

/-- C9 amended witness: defaults, attempt 1, random draw 1/2 — the delay is
above ⌊1000/2⌋ and below 1000. -/
theorem retry_delay_amended_witness :
    defaultRetryOptions.jitter = true ∧
    0 < defaultRetryOptions.baseDelay ∧
    0 < defaultRetryOptions.backoffMultiplier ∧
    0 < defaultRetryOptions.maxDelay ∧
    (0 : ℚ) ≤ 1 / 2 ∧ (1 / 2 : ℚ) < 1 ∧
    (Int.floor (min (defaultRetryOptions.baseDelay *
         defaultRetryOptions.backoffMultiplier ^ (1 - 1)) defaultRetryOptions.maxDelay / 2)
       ≤ calculateDelay defaultRetryOptions 1 (1 / 2) ∧
     ((calculateDelay defaultRetryOptions 1 (1 / 2) : ℚ) <
        min (defaultRetryOptions.baseDelay *
          defaultRetryOptions.backoffMultiplier ^ (1 - 1)) defaultRetryOptions.maxDelay)) :=
  ⟨rfl, by norm_num [defaultRetryOptions], by norm_num [defaultRetryOptions],
   by norm_num [defaultRetryOptions], by norm_num, by norm_num,
   retry_delay_amended defaultRetryOptions 1 (1 / 2) rfl
     (by norm_num [defaultRetryOptions]) (by norm_num [defaultRetryOptions])
     (by norm_num [defaultRetryOptions]) (by norm_num) (by norm_num)⟩

/-! ## C5: circuit breaker behaviour -/

/-- C5: for a non-expected error `e`:
from CLOSED a failing call is invoked, raises the consecutive-failure count
by one and opens the breaker exactly when the count reaches the threshold,
stamping `nextAttempt = now + resetTimeout`; while OPEN before `nextAttempt`
every call is rejected without invoking the wrapped function and the breaker
is unchanged; once `nextAttempt` is reached the one trial call is invoked
(in HALF_OPEN), success closes the breaker and resets the count, and a
non-expected failure (the count being at threshold, as it is whenever the
breaker opened) reopens it for another full reset timeout. -/
theorem circuit_breaker_spec (opts : CircuitBreakerOptions) (cb : CircuitBreaker)
    (now : Nat) (e : ErrInfo) (hexp : isExpectedError opts e = false) :
    (cb.state = .CLOSED →
       (cbExecute opts cb now (.error e)).invoked = true ∧
       (cbExecute opts cb now (.error e)).after.failureCount = cb.failureCount + 1 ∧
       ((cbExecute opts cb now (.error e)).after.state = .OPEN ↔
          opts.failureThreshold ≤ cb.failureCount + 1) ∧
       (opts.failureThreshold ≤ cb.failureCount + 1 →
          (cbExecute opts cb now (.error e)).after.nextAttempt =
            some (now + opts.resetTimeout))) ∧
    (∀ t, cb.state = .OPEN → cb.nextAttempt = some t → now < t →
       ∀ outcome, cbExecute opts cb now outcome = .rejected cb) ∧
    (∀ t, cb.state = .OPEN → cb.nextAttempt = some t → t ≤ now →
       (∀ outcome, (cbExecute opts cb now outcome).invoked = true) ∧
       ((cbExecute opts cb now (.ok ())).after.state = .CLOSED ∧
        (cbExecute opts cb now (.ok ())).after.failureCount = 0) ∧
       (opts.failureThreshold ≤ cb.failureCount + 1 →
          (cbExecute opts cb now (.error e)).after.state = .OPEN ∧
          (cbExecute opts cb now (.error e)).after.nextAttempt =
            some (now + opts.resetTimeout))) := by
  refine ⟨?_, ?_, ?_⟩
  · intro hc
    have hno : ¬ cb.state = .OPEN := by rw [hc]; intro hx; cases hx
    simp only [cbExecute, if_neg hno, onFailure, hexp, Bool.false_eq_true, if_false,
      CBResult.invoked, CBResult.after]
    refine ⟨trivial, ?_, ?_, ?_⟩
    · by_cases hth : cb.failureCount + 1 ≥ opts.failureThreshold
      · rw [if_pos hth]
      · rw [if_neg hth]
    · by_cases hth : cb.failureCount + 1 ≥ opts.failureThreshold
      · rw [if_pos hth]
        simp [hth]
      · rw [if_neg hth]
        simp only [hc]
        constructor
        · intro hx
          cases hx
        · intro hx
          exact absurd hx hth
    · intro hth
      rw [if_pos hth]
  · intro t ho hna hlt outcome
    have hsar : shouldAttemptReset cb now = false := by
      unfold shouldAttemptReset
      rw [hna]
      simpa using Nat.not_le.mpr hlt
    simp only [cbExecute, if_pos ho, hsar, Bool.false_eq_true, if_false]
  · intro t ho hna hle
    have hsar : shouldAttemptReset cb now = true := by
      unfold shouldAttemptReset
      rw [hna]
      simpa using hle
    refine ⟨?_, ⟨?_, ?_⟩, ?_⟩
    · intro outcome
      cases outcome <;>
        simp [cbExecute, if_pos ho, hsar, CBResult.invoked]
    · simp [cbExecute, if_pos ho, hsar, onSuccess, CBResult.after]
    · simp [cbExecute, if_pos ho, hsar, onSuccess, CBResult.after]
    · intro hth
      constructor <;>
        simp [cbExecute, if_pos ho, hsar, onFailure, hexp, CBResult.after, hth]

/-- C5 witness: with the default options (threshold 5), a breaker with 4
consecutive failures receives a fifth non-expected failure and opens with
`nextAttempt = now + 30000`; while OPEN it rejects calls before the timeout;
at the timeout the single trial is invoked and decides the state. -/
theorem circuit_breaker_spec_witness :
    isExpectedError defaultCircuitBreakerOptions ⟨"Error", "boom"⟩ = false ∧
    ((CircuitBreaker.mk .CLOSED 4 none none).state = .CLOSED →
       (cbExecute defaultCircuitBreakerOptions ⟨.CLOSED, 4, none, none⟩ 0
          (.error ⟨"Error", "boom"⟩)).invoked = true ∧
       (cbExecute defaultCircuitBreakerOptions ⟨.CLOSED, 4, none, none⟩ 0
          (.error ⟨"Error", "boom"⟩)).after.failureCount =
         (CircuitBreaker.mk .CLOSED 4 none none).failureCount + 1 ∧
       ((cbExecute defaultCircuitBreakerOptions ⟨.CLOSED, 4, none, none⟩ 0
           (.error ⟨"Error", "boom"⟩)).after.state = .OPEN ↔
          defaultCircuitBreakerOptions.failureThreshold ≤
            (CircuitBreaker.mk .CLOSED 4 none none).failureCount + 1) ∧
       (defaultCircuitBreakerOptions.failureThreshold ≤
           (CircuitBreaker.mk .CLOSED 4 none none).failureCount + 1 →
          (cbExecute defaultCircuitBreakerOptions ⟨.CLOSED, 4, none, none⟩ 0
             (.error ⟨"Error", "boom"⟩)).after.nextAttempt =
            some (0 + defaultCircuitBreakerOptions.resetTimeout))) ∧
    (∀ t, (CircuitBreaker.mk .CLOSED 4 none none).state = .OPEN →
       (CircuitBreaker.mk .CLOSED 4 none none).nextAttempt = some t → 0 < t →
       ∀ outcome, cbExecute defaultCircuitBreakerOptions ⟨.CLOSED, 4, none, none⟩ 0
         outcome = .rejected ⟨.CLOSED, 4, none, none⟩) ∧
    (∀ t, (CircuitBreaker.mk .CLOSED 4 none none).state = .OPEN →
       (CircuitBreaker.mk .CLOSED 4 none none).nextAttempt = some t → t ≤ 0 →
       (∀ outcome, (cbExecute defaultCircuitBreakerOptions ⟨.CLOSED, 4, none, none⟩ 0
          outcome).invoked = true) ∧
       ((cbExecute defaultCircuitBreakerOptions ⟨.CLOSED, 4, none, none⟩ 0
           (.ok ())).after.state = .CLOSED ∧
        (cbExecute defaultCircuitBreakerOptions ⟨.CLOSED, 4, none, none⟩ 0
           (.ok ())).after.failureCount = 0) ∧
       (defaultCircuitBreakerOptions.failureThreshold ≤
           (CircuitBreaker.mk .CLOSED 4 none none).failureCount + 1 →
          (cbExecute defaultCircuitBreakerOptions ⟨.CLOSED, 4, none, none⟩ 0
             (.error ⟨"Error", "boom"⟩)).after.state = .OPEN ∧
          (cbExecute defaultCircuitBreakerOptions ⟨.CLOSED, 4, none, none⟩ 0
             (.error ⟨"Error", "boom"⟩)).after.nextAttempt =
            some (0 + defaultCircuitBreakerOptions.resetTimeout))) :=
  ⟨rfl, circuit_breaker_spec defaultCircuitBreakerOptions ⟨.CLOSED, 4, none, none⟩ 0
     ⟨"Error", "boom"⟩ rfl⟩

end MicroPulse
